import Mathlib

/-!
Verification of the conversion core of `carabiner-dev/pypi-attestations`
(`pkg/convert/convert.go`): bidirectional translation between a PEP 740
PyPI attestation and a Sigstore bundle, together with the JSON codecs of
both models.

Bytes are embedded as `List Nat` (each element intended to be `< 256`,
matching Go's `[]byte`); JSON values as an inductive `JVal`; fallible Go
functions return either `Except String` or the panic-aware `GoResult`.
External collaborators that the repository calls but does not define
(x509 parsing, the protojson/structpb codec, the sigstore-go bundle
wrapper) are modelled from the specification, as marked on each one.
-/

namespace PyPIAttestations

/-- JSON value tree, the shallow embedding of Go's generic
`map[string]interface{}` / `[]interface{}` decoding target.  Numbers are
modelled as integers (every number appearing in the conversion contract
is integral). -/
inductive JVal where
  | null
  | bool (b : Bool)
  | num (n : Int)
  | str (s : String)
  | arr (elems : List JVal)
  | obj (fields : List (String × JVal))

/-- Embedding of `structpb.Struct`: a generic JSON-object-shaped record,
a list of key/value fields. -/
structure Struct where
  fields : List (String × JVal)

/-- Standard base64 alphabet, in index order. -/
def b64Alphabet : List Char :=
  "ABCDEFGHIJKLMNOPQRSTUVWXYZabcdefghijklmnopqrstuvwxyz0123456789+/".data

/-- Value-to-character map of standard base64. -/
def e64 (n : Nat) : Char := b64Alphabet.getD n 'A'

/-- Linear scan used to invert the base64 alphabet. -/
def d64Aux : List Char → Nat → Char → Option Nat
  | [], _, _ => none
  | a :: rest, i, c => if c = a then some i else d64Aux rest (i + 1) c

/-- Character-to-value map of standard base64; `none` on characters
outside the alphabet (including the padding character). -/
def d64 (c : Char) : Option Nat := d64Aux b64Alphabet 0 c

/-- Embedding of Go's `base64.StdEncoding.EncodeToString` on a byte
list: three input bytes become four alphabet characters, a final one- or
two-byte fragment is padded with `=`. -/
def encodeB64 : List Nat → List Char
  | [] => []
  | [b1] => [e64 (b1 / 4), e64 (b1 % 4 * 16), '=', '=']
  | [b1, b2] => [e64 (b1 / 4), e64 (b1 % 4 * 16 + b2 / 16), e64 (b2 % 16 * 4), '=']
  | b1 :: b2 :: b3 :: rest =>
      e64 (b1 / 4) :: e64 (b1 % 4 * 16 + b2 / 16) :: e64 (b2 % 16 * 4 + b3 / 64) ::
        e64 (b3 % 64) :: encodeB64 rest

/-- Embedding of Go's `base64.StdEncoding.DecodeString`: the input must
be a sequence of four-character quanta; padding may appear only in the
last quantum and only in its final one or two positions; any character
outside the alphabet fails. -/
def decodeB64 : List Char → Option (List Nat)
  | [] => some []
  | c1 :: c2 :: c3 :: c4 :: rest =>
      if c3 = '=' then
        if c4 = '=' ∧ rest = [] then
          match d64 c1, d64 c2 with
          | some v1, some v2 => some [v1 * 4 + v2 / 16]
          | _, _ => none
        else none
      else if c4 = '=' then
        if rest = [] then
          match d64 c1, d64 c2, d64 c3 with
          | some v1, some v2, some v3 => some [v1 * 4 + v2 / 16, v2 % 16 * 16 + v3 / 4]
          | _, _, _ => none
        else none
      else
        match d64 c1, d64 c2, d64 c3, d64 c4, decodeB64 rest with
        | some v1, some v2, some v3, some v4, some tail =>
            some ((v1 * 4 + v2 / 16) :: (v2 % 16 * 16 + v3 / 4) :: (v3 % 4 * 64 + v4) :: tail)
        | _, _, _, _, _ => none
  | _ => none

theorem d64_e64 : ∀ n < 64, d64 (e64 n) = some n := by decide

theorem e64_ne_pad : ∀ n < 64, e64 n ≠ '=' := by decide

/-- Decoding inverts encoding on genuine byte lists. -/
theorem decodeB64_encodeB64 : ∀ l : List Nat, (∀ b ∈ l, b < 256) →
    decodeB64 (encodeB64 l) = some l
  | [], _ => rfl
  | [b1], h => by
      have hb1 : b1 < 256 := h b1 (by simp)
      simp only [encodeB64, decodeB64]
      rw [d64_e64 (b1 / 4) (by omega), d64_e64 (b1 % 4 * 16) (by omega)]
      simp only [if_true, and_self, ite_true, Option.some.injEq, List.cons.injEq, and_true]
      omega
  | [b1, b2], h => by
      have hb1 : b1 < 256 := h b1 (by simp)
      have hb2 : b2 < 256 := h b2 (by simp)
      have hne : e64 (b2 % 16 * 4) ≠ '=' := e64_ne_pad _ (by omega)
      simp only [encodeB64, decodeB64]
      rw [d64_e64 (b1 / 4) (by omega), d64_e64 (b1 % 4 * 16 + b2 / 16) (by omega),
        d64_e64 (b2 % 16 * 4) (by omega)]
      simp only [hne, if_false, ite_false, if_true, ite_true, and_self,
        Option.some.injEq, List.cons.injEq, and_true]
      omega
  | b1 :: b2 :: b3 :: rest, h => by
      have hb1 : b1 < 256 := h b1 (by simp)
      have hb2 : b2 < 256 := h b2 (by simp)
      have hb3 : b3 < 256 := h b3 (by simp)
      have hne1 : e64 (b2 % 16 * 4 + b3 / 64) ≠ '=' := e64_ne_pad _ (by omega)
      have hne2 : e64 (b3 % 64) ≠ '=' := e64_ne_pad _ (by omega)
      have ih : decodeB64 (encodeB64 rest) = some rest :=
        decodeB64_encodeB64 rest (fun b hb => h b (by simp [hb]))
      simp only [encodeB64, decodeB64]
      rw [d64_e64 (b1 / 4) (by omega), d64_e64 (b1 % 4 * 16 + b2 / 16) (by omega),
        d64_e64 (b2 % 16 * 4 + b3 / 64) (by omega), d64_e64 (b3 % 64) (by omega), ih]
      simp only [hne1, hne2, if_false, ite_false, Option.some.injEq, List.cons.injEq, and_true]
      refine ⟨by omega, by omega, by omega⟩

/-- Result of a parsed certificate: `Raw` holds the full DER encoding of
the certificate, exactly the bytes that were parsed. -/
structure X509ParsedCert where
  Raw : List Nat

/-- Helper for the modelled DER check: the first byte of `rest` is a
definite length field (short form, or long form with one or two length
bytes) whose value matches the number of remaining bytes. -/
def derLengthMatches : List Nat → Bool
  | [] => false
  | l :: body =>
      if l < 128 then body.length == l
      else if l == 129 then
        match body with
        | n :: b => decide (128 ≤ n) && b.length == n
        | [] => false
      else if l == 130 then
        match body with
        | n1 :: n2 :: b => decide (256 ≤ n1 * 256 + n2) && b.length == n1 * 256 + n2
        | _ => false
      else false

/-- Modelled from the spec: X.509 parsing internals are out of scope, a
library call returning a parsed certificate or an error
(`x509.ParseCertificate`).  A certificate parses exactly when the bytes
form a single well-formed DER SEQUENCE covering the whole input, and the
parsed certificate's `Raw` field is the input bytes themselves. -/
def x509ParseCertificate (der : List Nat) : Option X509ParsedCert :=
  match der with
  | 48 :: rest => if derLengthMatches rest then some ⟨der⟩ else none
  | _ => none

/-- Recognized top-level field names of the typed transparency-log-entry
record (`protorekor.TransparencyLogEntry`) in its JSON projection. -/
def tleRecognizedKeys : List String :=
  ["logIndex", "logId", "kindVersion", "integratedTime", "inclusionPromise",
    "inclusionProof", "canonicalizedBody"]

/-- Shape admitted for each recognized field of the typed
transparency-log-entry record: the two int64 fields are carried as JSON
strings or numbers, the byte field as a (base64) string, and the message
fields as JSON objects. -/
def tleFieldOk : String → JVal → Bool
  | "logIndex", JVal.num _ => true
  | "logIndex", JVal.str _ => true
  | "integratedTime", JVal.num _ => true
  | "integratedTime", JVal.str _ => true
  | "canonicalizedBody", JVal.str _ => true
  | "logId", JVal.obj _ => true
  | "kindVersion", JVal.obj _ => true
  | "inclusionPromise", JVal.obj _ => true
  | "inclusionProof", JVal.obj _ => true
  | _, _ => false

/-- Modelled from the spec: the typed transparency-log-entry record of
the bundle schema (`protorekor.TransparencyLogEntry`), represented by
its JSON projection restricted to the schema's recognized fields. -/
structure TransparencyLogEntry where
  fields : List (String × JVal)

/-- Embedding of `transparencyEntryFromStruct`: the generic→typed leg of
the transparency-entry adapter.  Modelled from the spec (§4.5): the
round trip through the structured-message JSON codec keeps the fields
the typed schema recognizes, silently dropping any other field, and
fails when a recognized field does not fit the schema's shape. -/
def transparencyEntryFromStruct (s : Struct) : Except String TransparencyLogEntry :=
  let kept := s.fields.filter fun kv => tleRecognizedKeys.contains kv.1
  if kept.all fun kv => tleFieldOk kv.1 kv.2 then
    Except.ok ⟨kept⟩
  else
    Except.error "failed to unmarshal JSON to TransparencyLogEntry"

/-- Embedding of `transparencyEntryToStruct`: the typed→generic leg of
the transparency-entry adapter.  Modelled from the spec (§4.5): the
typed record's JSON projection only ever produces the recognized fields
it holds, so the conversion into a generic structured value succeeds. -/
def transparencyEntryToStruct (t : TransparencyLogEntry) : Except String Struct :=
  Except.ok ⟨t.fields⟩

/-- Embedding of `pb.VerificationMaterial`: certificate bytes plus the
generic transparency entries of a PyPI attestation. -/
structure VerificationMaterial where
  Certificate : List Nat
  TransparencyEntries : List Struct

/-- Embedding of `pb.Envelope`: statement and signature bytes. -/
structure Envelope where
  Statement : List Nat
  Signature : List Nat

/-- Embedding of `pb.Attestation`.  The two sub-blocks are pointers in
Go, hence `Option` here, with `none` embedding `nil`. -/
structure Attestation where
  Version : Nat
  VerificationMaterial : Option VerificationMaterial
  Envelope : Option Envelope

/-- Embedding of `protocommon.X509Certificate`. -/
structure X509Certificate where
  RawBytes : List Nat

/-- Embedding of the tagged union
`protobundle.VerificationMaterial.Content`: single certificate,
certificate chain, or another variant (public key). -/
inductive VMContent where
  | certificate (cert : X509Certificate)
  | x509CertificateChain (certificates : List X509Certificate)
  | publicKey (hint : String)

/-- Embedding of `protobundle.VerificationMaterial`; the oneof content
is `none` when unset. -/
structure BundleVerificationMaterial where
  Content : Option VMContent
  TlogEntries : List TransparencyLogEntry

/-- Embedding of `protodsse.Signature`. -/
structure DsseSignature where
  Sig : List Nat

/-- Embedding of `protodsse.Envelope`. -/
structure DsseEnvelope where
  Payload : List Nat
  PayloadType : String
  Signatures : List DsseSignature

/-- Embedding of the tagged union `protobundle.Bundle.Content`: only the
DSSE-envelope variant is handled by the converter; the message-signature
variant stands in for every other variant. -/
inductive BundleContent where
  | dsseEnvelope (envelope : DsseEnvelope)
  | messageSignature

/-- Embedding of `protobundle.Bundle` (the inner protobuf message). -/
structure ProtoBundle where
  MediaType : String
  VerificationMaterial : Option BundleVerificationMaterial
  Content : Option BundleContent

/-- Embedding of `bundle.Bundle` (the sigstore-go wrapper): it embeds a
possibly-nil pointer to the protobuf message. -/
structure SigstoreBundle where
  Bundle : Option ProtoBundle

/-- Result of a Go function that can return a value, return an error, or
panic (nil-pointer dereference). -/
inductive GoResult (α : Type) where
  | ok (value : α)
  | err (msg : String)
  | panics

/-- True exactly when the result is an error value (not a success and
not a panic). -/
def GoResult.isErr {α : Type} : GoResult α → Bool
  | .err _ => true
  | _ => false

/-- True exactly when the result is a success. -/
def GoResult.isOk {α : Type} : GoResult α → Bool
  | .ok _ => true
  | _ => false

/-- Modelled from the spec: `bundle.NewBundle`, the sigstore-go wrapper
constructor, wraps the protobuf message produced by the converter. -/
def newBundle (pb : ProtoBundle) : GoResult SigstoreBundle :=
  GoResult.ok ⟨some pb⟩

/-- Embedding of `ToBundle` (§4.3): converts a PyPI attestation to a
Sigstore bundle.  The argument is `Option` to embed the nil pointer; the
field accesses on the `VerificationMaterial` and `Envelope` pointers
panic when those are nil, in the order the Go code performs them. -/
def ToBundle : Option Attestation → GoResult SigstoreBundle
  | none => GoResult.err "attestation cannot be nil"
  | some a =>
      if a.Version ≠ 1 then
        GoResult.err ("unsupported attestation version: " ++ toString a.Version)
      else
        match a.VerificationMaterial with
        | none => GoResult.panics
        | some vm =>
            match x509ParseCertificate vm.Certificate with
            | none => GoResult.err "failed to parse certificate"
            | some cert =>
                match a.Envelope with
                | none => GoResult.panics
                | some env =>
                    let envelope : DsseEnvelope :=
                      ⟨env.Statement, "application/vnd.in-toto+json", [⟨env.Signature⟩]⟩
                    match vm.TransparencyEntries with
                    | [] => GoResult.err "no transparency entries found"
                    | e0 :: _ =>
                        match transparencyEntryFromStruct e0 with
                        | Except.error e =>
                            GoResult.err ("failed to convert transparency entry: " ++ e)
                        | Except.ok tlogEntry =>
                            newBundle
                              ⟨"application/vnd.dev.sigstore.bundle.v0.3+json",
                                some ⟨some (VMContent.certificate ⟨cert.Raw⟩), [tlogEntry]⟩,
                                some (BundleContent.dsseEnvelope envelope)⟩

/-- Embedding of the certificate extraction switch at the top of
`FromBundle`: single-certificate variant yields its raw bytes, a chain
yields the first element's bytes (error on an empty chain), anything
else is unsupported. -/
def extractCertBytes : Option VMContent → Except String (List Nat)
  | some (VMContent.certificate cert) => Except.ok cert.RawBytes
  | some (VMContent.x509CertificateChain certificates) =>
      match certificates with
      | [] => Except.error "no certificates in chain"
      | c :: _ => Except.ok c.RawBytes
  | _ => Except.error "unsupported certificate type"

/-- Embedding of the tlog-entry conversion loop of `FromBundle`:
converts every typed entry back to a generic structured value, aborting
with the offending index on failure. -/
def convertEntries : Nat → List TransparencyLogEntry → Except String (List Struct)
  | _, [] => Except.ok []
  | i, e :: rest =>
      match transparencyEntryToStruct e with
      | Except.error msg =>
          Except.error ("failed to convert transparency entry " ++ toString i ++ ": " ++ msg)
      | Except.ok s =>
          match convertEntries (i + 1) rest with
          | Except.error msg => Except.error msg
          | Except.ok tail => Except.ok (s :: tail)

/-- Embedding of `FromBundle` (§4.4): converts a Sigstore bundle back to
a PyPI attestation.  The outer `Option` embeds a nil `*bundle.Bundle`;
the inner `Option` the wrapper's nil protobuf message.  Accessing the
verification material's content panics when that pointer is nil. -/
def FromBundle : Option SigstoreBundle → GoResult Attestation
  | none => GoResult.err "bundle cannot be nil"
  | some b =>
      match b.Bundle with
      | none => GoResult.err "bundle cannot be nil"
      | some pb =>
          match pb.VerificationMaterial with
          | none => GoResult.panics
          | some vm =>
              match extractCertBytes vm.Content with
              | Except.error e => GoResult.err e
              | Except.ok certBytes =>
                  match pb.Content with
                  | some (BundleContent.dsseEnvelope envelope) =>
                      match envelope.Signatures with
                      | [sig] =>
                          match convertEntries 0 vm.TlogEntries with
                          | Except.error e => GoResult.err e
                          | Except.ok tlogEntries =>
                              GoResult.ok
                                ⟨1, some ⟨certBytes, tlogEntries⟩,
                                  some ⟨envelope.Payload, sig.Sig⟩⟩
                      | sigs =>
                          GoResult.err
                            ("expected exactly one signature, got " ++ toString sigs.length)
                  | _ => GoResult.err "bundle does not contain a DSSE envelope"

/-- Composition `FromBundle ∘ ToBundle`, the round trip of §8,
propagating an error or panic of the first leg. -/
def roundTrip (oa : Option Attestation) : GoResult Attestation :=
  match ToBundle oa with
  | GoResult.ok b => FromBundle (some b)
  | GoResult.err e => GoResult.err e
  | GoResult.panics => GoResult.panics

/-- Key lookup in a decoded JSON object, embedding Go's `raw[key]` on
the map produced by `json.Unmarshal`. -/
def lookupField (fields : List (String × JVal)) (k : String) : Option JVal :=
  (fields.find? fun kv => kv.1 == k).map fun kv => kv.2

/-- JSON tree emitted by `MarshalAttestation` for an attestation whose
two sub-blocks are non-nil: the two byte fields base64-encoded, the
transparency entries embedded as JSON objects, keys in the alphabetical
order `json.Marshal` uses for Go maps. -/
def attestationJson (version : Nat) (vm : VerificationMaterial) (env : Envelope) : JVal :=
  JVal.obj
    [("envelope", JVal.obj
        [("signature", JVal.str ⟨encodeB64 env.Signature⟩),
          ("statement", JVal.str ⟨encodeB64 env.Statement⟩)]),
      ("verification_material", JVal.obj
        [("certificate", JVal.str ⟨encodeB64 vm.Certificate⟩),
          ("transparency_entries",
            JVal.arr (vm.TransparencyEntries.map fun s => JVal.obj s.fields))]),
      ("version", JVal.num version)]

/-- Embedding of `MarshalAttestation`: serializes an attestation to its
PEP 740 JSON tree.  The function performs no nil check: it dereferences
the attestation and both sub-blocks unconditionally, so a nil
attestation, a nil verification material, or a nil envelope panics. -/
def MarshalAttestation : Option Attestation → GoResult JVal
  | none => GoResult.panics
  | some a =>
      match a.VerificationMaterial, a.Envelope with
      | some vm, some env => GoResult.ok (attestationJson a.Version vm env)
      | _, _ => GoResult.panics

/-- Modelled from the spec: protojson rendering of the verification
material's oneof content. -/
def vmContentJson : Option VMContent → List (String × JVal)
  | some (VMContent.certificate cert) =>
      [("certificate", JVal.obj [("rawBytes", JVal.str ⟨encodeB64 cert.RawBytes⟩)])]
  | some (VMContent.x509CertificateChain certificates) =>
      [("x509CertificateChain", JVal.obj
          [("certificates", JVal.arr (certificates.map fun c =>
              JVal.obj [("rawBytes", JVal.str ⟨encodeB64 c.RawBytes⟩)]))])]
  | some (VMContent.publicKey hint) =>
      [("publicKey", JVal.obj [("hint", JVal.str hint)])]
  | none => []

/-- Modelled from the spec: protojson rendering of the bundle content
oneof; only the DSSE-envelope variant is produced by this converter. -/
def bundleContentJson : Option BundleContent → List (String × JVal)
  | some (BundleContent.dsseEnvelope envelope) =>
      [("dsseEnvelope", JVal.obj
          [("payload", JVal.str ⟨encodeB64 envelope.Payload⟩),
            ("payloadType", JVal.str envelope.PayloadType),
            ("signatures", JVal.arr (envelope.Signatures.map fun s =>
              JVal.obj [("sig", JVal.str ⟨encodeB64 s.Sig⟩)]))])]
  | some BundleContent.messageSignature => [("messageSignature", JVal.obj [])]
  | none => []

/-- Modelled from the spec: the typed structured-message JSON codec
(`protojson.Marshal`) applied to the Bundle protobuf message, a trusted
external codec whose projection notably includes the `mediaType`
field. -/
def protojsonBundle (pb : ProtoBundle) : JVal :=
  JVal.obj
    (("mediaType", JVal.str pb.MediaType) ::
      ((match pb.VerificationMaterial with
        | some vm =>
            [("verificationMaterial", JVal.obj
                (vmContentJson vm.Content ++
                  [("tlogEntries", JVal.arr (vm.TlogEntries.map fun t => JVal.obj t.fields))]))]
        | none => []) ++
        bundleContentJson pb.Content))

/-- Embedding of `MarshalBundle`: rejects a nil bundle or a nil inner
message with an error, then delegates to the protojson codec. -/
def MarshalBundle : Option SigstoreBundle → GoResult JVal
  | none => GoResult.err "bundle cannot be nil"
  | some b =>
      match b.Bundle with
      | none => GoResult.err "bundle cannot be nil"
      | some pb => GoResult.ok (protojsonBundle pb)

/-- Version extraction of `UnmarshalAttestation`: a numeric `version`
field is converted to `uint32`; a missing or non-numeric field leaves
the zero value. -/
def decodeVersion (raw : List (String × JVal)) : Nat :=
  match lookupField raw "version" with
  | some (JVal.num n) => n.toNat % 4294967296
  | _ => 0

/-- Transparency-entry extraction of `UnmarshalAttestation`: each JSON
object of the `transparency_entries` array becomes one generic
structured value; non-object elements are silently skipped. -/
def decodeEntriesField (vm : List (String × JVal)) : List Struct :=
  match lookupField vm "transparency_entries" with
  | some (JVal.arr l) =>
      l.filterMap fun e =>
        match e with
        | JVal.obj f => some ⟨f⟩
        | _ => none
  | _ => []

/-- Verification-material extraction of `UnmarshalAttestation`: a
present `certificate` string field must decode as base64 (hard error
otherwise); a missing or non-string field leaves empty bytes. -/
def decodeVMFields (vm : List (String × JVal)) : Except String VerificationMaterial :=
  match lookupField vm "certificate" with
  | some (JVal.str s) =>
      match decodeB64 s.data with
      | none => Except.error "failed to decode certificate"
      | some cert => Except.ok ⟨cert, decodeEntriesField vm⟩
  | _ => Except.ok ⟨[], decodeEntriesField vm⟩

/-- Envelope extraction of `UnmarshalAttestation`: present `statement`
and `signature` string fields must decode as base64, statement checked
first; missing or non-string fields leave empty bytes. -/
def decodeEnvFields (env : List (String × JVal)) : Except String Envelope :=
  match (match lookupField env "statement" with
         | some (JVal.str s) =>
             match decodeB64 s.data with
             | none => Except.error "failed to decode statement"
             | some stmt => Except.ok stmt
         | _ => Except.ok []) with
  | Except.error e => Except.error e
  | Except.ok stmt =>
      match lookupField env "signature" with
      | some (JVal.str s) =>
          match decodeB64 s.data with
          | none => Except.error "failed to decode signature"
          | some sig => Except.ok ⟨stmt, sig⟩
      | _ => Except.ok ⟨stmt, []⟩

/-- Embedding of `UnmarshalAttestation`.  The argument is the result of
the external `json.Unmarshal` into a generic map: `none` embeds
malformed JSON text, a non-object value embeds well-formed JSON that is
not an object (which `json.Unmarshal` rejects for a map target, except
for `null`, which leaves the empty map).  Both sub-blocks are always
constructed, even when the corresponding input fields are absent. -/
def UnmarshalAttestation : Option JVal → Except String Attestation
  | some (JVal.obj raw) =>
      match (match lookupField raw "verification_material" with
             | some (JVal.obj vm) => decodeVMFields vm
             | _ => Except.ok ⟨[], []⟩) with
      | Except.error e => Except.error e
      | Except.ok vm =>
          match (match lookupField raw "envelope" with
                 | some (JVal.obj env) => decodeEnvFields env
                 | _ => Except.ok ⟨[], []⟩) with
          | Except.error e => Except.error e
          | Except.ok env => Except.ok ⟨decodeVersion raw, some vm, some env⟩
  | some JVal.null => Except.ok ⟨0, some ⟨[], []⟩, some ⟨[], []⟩⟩
  | _ => Except.error "failed to unmarshal JSON"

/-! ### Helper lemmas and sample values -/

/-- Sample generic transparency entry whose only field is recognized by
the typed schema. -/
def sampleEntry : Struct := ⟨[("logIndex", JVal.str "1")]⟩

/-- Typed record corresponding to `sampleEntry`. -/
def sampleTle : TransparencyLogEntry := ⟨[("logIndex", JVal.str "1")]⟩

/-- Sample certificate bytes: an empty DER SEQUENCE, accepted by the
modelled parser. -/
def sampleCert : List Nat := [48, 0]

/-- Sample valid attestation with one transparency entry. -/
def sampleAttestation : Attestation :=
  ⟨1, some ⟨sampleCert, [sampleEntry]⟩, some ⟨[1], [2]⟩⟩

theorem x509Parse_raw (d : List Nat) (c : X509ParsedCert)
    (h : x509ParseCertificate d = some c) : c.Raw = d := by
  unfold x509ParseCertificate at h
  split at h
  · split at h
    · cases h; rfl
    · cases h
  · cases h

theorem convertEntries_eq (l : List TransparencyLogEntry) : ∀ i : Nat,
    convertEntries i l = Except.ok (l.map fun t => (⟨t.fields⟩ : Struct)) := by
  induction l with
  | nil => intro i; rfl
  | cons e rest ih => intro i; simp [convertEntries, transparencyEntryToStruct, ih (i + 1)]

theorem filterMap_obj_map (l : List Struct) :
    ((l.map fun s => JVal.obj s.fields).filterMap fun e =>
      match e with
      | JVal.obj f => some (⟨f⟩ : Struct)
      | _ => none) = l := by
  induction l with
  | nil => rfl
  | cons s rest ih => simp [List.filterMap_cons, ih]

theorem filterMap_obj_comp (l : List Struct) :
    l.filterMap ((fun e =>
      match e with
      | JVal.obj f => some (⟨f⟩ : Struct)
      | _ => none) ∘ fun s => JVal.obj s.fields) = l := by
  induction l with
  | nil => rfl
  | cons s rest ih => simp [List.filterMap_cons, Function.comp, ih]

theorem decodeVMFields_entries (vm : List (String × JVal)) (m : VerificationMaterial)
    (h : decodeVMFields vm = Except.ok m) :
    m.TransparencyEntries = decodeEntriesField vm := by
  unfold decodeVMFields at h
  split at h
  · split at h
    · cases h
    · cases h; rfl
  · cases h; rfl

/-! ### Claims -/

/-- C8: `ToBundle` applied to a nil attestation and `FromBundle` applied
to a nil bundle or to a bundle whose inner message is nil each return
the structural error value (`attestation cannot be nil` /
`bundle cannot be nil`) and never panic. -/
theorem c8_nil_inputs_error_never_panic :
    ToBundle none = GoResult.err "attestation cannot be nil" ∧
    FromBundle none = GoResult.err "bundle cannot be nil" ∧
    FromBundle (some ⟨none⟩) = GoResult.err "bundle cannot be nil" ∧
    ToBundle none ≠ GoResult.panics ∧
    FromBundle none ≠ GoResult.panics ∧
    FromBundle (some ⟨none⟩) ≠ GoResult.panics :=
  ⟨rfl, rfl, rfl, fun h => GoResult.noConfusion h, fun h => GoResult.noConfusion h,
    fun h => GoResult.noConfusion h⟩

/-- C5: `FromBundle` extracts the raw certificate bytes from the
verification material's tagged union: the single-certificate variant
yields its raw bytes, the chain variant yields the first element's raw
bytes and fails on an empty chain, and any other variant (or an unset
oneof) fails with an unsupported-certificate-type error; an extraction
error is returned by `FromBundle` as-is. -/
theorem c5_certificate_extraction :
    (∀ cert, extractCertBytes (some (VMContent.certificate cert)) =
      Except.ok cert.RawBytes) ∧
    extractCertBytes (some (VMContent.x509CertificateChain [])) =
      Except.error "no certificates in chain" ∧
    (∀ c rest, extractCertBytes (some (VMContent.x509CertificateChain (c :: rest))) =
      Except.ok c.RawBytes) ∧
    (∀ hint, extractCertBytes (some (VMContent.publicKey hint)) =
      Except.error "unsupported certificate type") ∧
    extractCertBytes none = Except.error "unsupported certificate type" ∧
    (∀ pb vm e, pb.VerificationMaterial = some vm →
      extractCertBytes vm.Content = Except.error e →
      FromBundle (some ⟨some pb⟩) = GoResult.err e) := by
  refine ⟨fun cert => rfl, rfl, fun c rest => rfl, fun hint => rfl, rfl, ?_⟩
  intro pb vm e hvm herr
  simp [FromBundle, hvm, herr]

theorem c5_certificate_extraction_witness :
    FromBundle (some ⟨some ⟨"m", some ⟨none, []⟩, none⟩⟩) =
      GoResult.err "unsupported certificate type" :=
  c5_certificate_extraction.2.2.2.2.2 ⟨"m", some ⟨none, []⟩, none⟩ ⟨none, []⟩
    "unsupported certificate type" rfl rfl

/-- C2: on a non-nil version-1 attestation whose certificate parses and
whose transparency-entry list is non-empty with a convertible entry 0,
`ToBundle` succeeds and produces exactly the bundle described by the
claim: the v0.3 media type, the single-certificate variant holding the
parsed certificate's raw bytes, a single converted tlog entry (entries
beyond index 0 dropped), and the DSSE-envelope content with the fixed
in-toto payload type and the single signature. -/
theorem c2_toBundle_success
    (a : Attestation) (vm : VerificationMaterial) (env : Envelope)
    (cert : X509ParsedCert) (e0 : Struct) (rest : List Struct) (t : TransparencyLogEntry)
    (hver : a.Version = 1)
    (hvm : a.VerificationMaterial = some vm)
    (henv : a.Envelope = some env)
    (hcert : x509ParseCertificate vm.Certificate = some cert)
    (hentries : vm.TransparencyEntries = e0 :: rest)
    (hconv : transparencyEntryFromStruct e0 = Except.ok t) :
    ToBundle (some a) = GoResult.ok
      ⟨some ⟨"application/vnd.dev.sigstore.bundle.v0.3+json",
        some ⟨some (VMContent.certificate ⟨cert.Raw⟩), [t]⟩,
        some (BundleContent.dsseEnvelope
          ⟨env.Statement, "application/vnd.in-toto+json", [⟨env.Signature⟩]⟩)⟩⟩ := by
  simp [ToBundle, hver, hvm, henv, hcert, hentries, hconv, newBundle]

theorem c2_toBundle_success_witness :
    ToBundle (some sampleAttestation) = GoResult.ok
      ⟨some ⟨"application/vnd.dev.sigstore.bundle.v0.3+json",
        some ⟨some (VMContent.certificate ⟨sampleCert⟩), [sampleTle]⟩,
        some (BundleContent.dsseEnvelope
          ⟨[1], "application/vnd.in-toto+json", [⟨[2]⟩]⟩)⟩⟩ :=
  c2_toBundle_success sampleAttestation ⟨sampleCert, [sampleEntry]⟩ ⟨[1], [2]⟩
    ⟨sampleCert⟩ sampleEntry [] sampleTle rfl rfl rfl rfl rfl rfl

/-- C3: on a bundle with non-nil wrapper and inner message, successful
certificate extraction, DSSE-envelope content with exactly one
signature, and convertible tlog entries, `FromBundle` succeeds with
version 1, the extracted certificate bytes, all tlog entries converted
in order (same length, same order), and the envelope built from the
DSSE payload and the single signature; if the content is not the DSSE
variant, or the signature count differs from one, `FromBundle` fails
with an error. -/
theorem c3_fromBundle_success_shape
    (pb : ProtoBundle) (vm : BundleVerificationMaterial) (certBytes : List Nat)
    (envelope : DsseEnvelope) (sig : DsseSignature) (entries : List Struct)
    (hvm : pb.VerificationMaterial = some vm)
    (hcert : extractCertBytes vm.Content = Except.ok certBytes)
    (hcontent : pb.Content = some (BundleContent.dsseEnvelope envelope))
    (hsig : envelope.Signatures = [sig])
    (hentries : convertEntries 0 vm.TlogEntries = Except.ok entries) :
    (FromBundle (some ⟨some pb⟩) = GoResult.ok
        ⟨1, some ⟨certBytes, entries⟩, some ⟨envelope.Payload, sig.Sig⟩⟩ ∧
      entries = vm.TlogEntries.map (fun t => (⟨t.fields⟩ : Struct)) ∧
      entries.length = vm.TlogEntries.length) ∧
    (∀ pb2 vm2 cb2, pb2.VerificationMaterial = some vm2 →
      extractCertBytes vm2.Content = Except.ok cb2 →
      (∀ e2, pb2.Content ≠ some (BundleContent.dsseEnvelope e2)) →
      FromBundle (some ⟨some pb2⟩) = GoResult.err "bundle does not contain a DSSE envelope") ∧
    (∀ pb2 vm2 cb2 e2, pb2.VerificationMaterial = some vm2 →
      extractCertBytes vm2.Content = Except.ok cb2 →
      pb2.Content = some (BundleContent.dsseEnvelope e2) →
      e2.Signatures.length ≠ 1 →
      FromBundle (some ⟨some pb2⟩) = GoResult.err
        ("expected exactly one signature, got " ++ toString e2.Signatures.length)) := by
  have hmap : entries = vm.TlogEntries.map fun t => (⟨t.fields⟩ : Struct) := by
    have := convertEntries_eq vm.TlogEntries 0
    rw [this] at hentries
    exact (Except.ok.injEq _ _).mp hentries.symm
  refine ⟨⟨?_, hmap, by rw [hmap]; simp⟩, ?_, ?_⟩
  · simp [FromBundle, hvm, hcert, hcontent, hsig, hentries]
  · intro pb2 vm2 cb2 hvm2 hcert2 hnot
    simp only [FromBundle, hvm2, hcert2]
  · intro pb2 vm2 cb2 e2 hvm2 hcert2 hc2 hlen
    simp only [FromBundle, hvm2, hcert2, hc2]
    match hs2 : e2.Signatures with
    | [] => simp [hs2] at hlen ⊢
    | [s] => rw [hs2] at hlen; simp at hlen
    | s1 :: s2 :: rest => simp [hs2] at hlen ⊢

theorem c3_fromBundle_witness :
    FromBundle (some ⟨some ⟨"m",
      some ⟨some (VMContent.certificate ⟨sampleCert⟩), [sampleTle]⟩,
      some (BundleContent.dsseEnvelope ⟨[1], "t", [⟨[2]⟩]⟩)⟩⟩) =
      GoResult.ok ⟨1, some ⟨sampleCert, [sampleEntry]⟩, some ⟨[1], [2]⟩⟩ :=
  (c3_fromBundle_success_shape
    ⟨"m", some ⟨some (VMContent.certificate ⟨sampleCert⟩), [sampleTle]⟩,
      some (BundleContent.dsseEnvelope ⟨[1], "t", [⟨[2]⟩]⟩)⟩
    ⟨some (VMContent.certificate ⟨sampleCert⟩), [sampleTle]⟩
    sampleCert ⟨[1], "t", [⟨[2]⟩]⟩ ⟨[2]⟩ [sampleEntry]
    rfl rfl rfl rfl rfl).1.1

/-- C4: on an attestation whose two sub-blocks are non-nil (the shape on
which `ToBundle` runs to completion without a nil dereference),
`ToBundle` returns an error exactly when the attestation is nil, the
version differs from 1, the certificate fails to parse, the
transparency-entry list is empty, or converting entry 0 fails — with
the claimed error message in each case, in the order the code checks
them. -/
theorem c4_toBundle_error_conditions
    (a : Attestation) (vm : VerificationMaterial) (env : Envelope)
    (hvm : a.VerificationMaterial = some vm) (henv : a.Envelope = some env) :
    ((ToBundle (some a)).isErr = true ↔
      (a.Version ≠ 1 ∨ x509ParseCertificate vm.Certificate = none ∨
        vm.TransparencyEntries = [] ∨
        (∃ e0 rest, vm.TransparencyEntries = e0 :: rest ∧
          ∃ msg, transparencyEntryFromStruct e0 = Except.error msg))) ∧
    (ToBundle none).isErr = true ∧
    (a.Version ≠ 1 → ToBundle (some a) =
      GoResult.err ("unsupported attestation version: " ++ toString a.Version)) ∧
    (a.Version = 1 → x509ParseCertificate vm.Certificate = none →
      ToBundle (some a) = GoResult.err "failed to parse certificate") ∧
    (a.Version = 1 → ∀ cert, x509ParseCertificate vm.Certificate = some cert →
      vm.TransparencyEntries = [] →
      ToBundle (some a) = GoResult.err "no transparency entries found") ∧
    (a.Version = 1 → ∀ cert, x509ParseCertificate vm.Certificate = some cert →
      ∀ e0 rest, vm.TransparencyEntries = e0 :: rest →
      ∀ msg, transparencyEntryFromStruct e0 = Except.error msg →
      ToBundle (some a) = GoResult.err ("failed to convert transparency entry: " ++ msg)) := by
  refine ⟨?_, rfl, ?_, ?_, ?_, ?_⟩
  · by_cases h1 : a.Version = 1
    · match hx : x509ParseCertificate vm.Certificate with
      | none =>
          simp [ToBundle, h1, hvm, hx, GoResult.isErr]
      | some cert =>
          match hE : vm.TransparencyEntries with
          | [] => simp [ToBundle, h1, hvm, henv, hx, hE, GoResult.isErr]
          | e0 :: rest =>
              match hc : transparencyEntryFromStruct e0 with
              | Except.error msg =>
                  simp only [ToBundle, h1, hvm, henv, hx, hE, hc]
                  simp [GoResult.isErr, h1, hx, hE, hc]
              | Except.ok t =>
                  simp only [ToBundle, h1, hvm, henv, hx, hE, hc, newBundle]
                  simp [GoResult.isErr, h1, hx, hE]
                  intro x rest2
                  rw [rest2] at hc
                  exact Except.noConfusion hc
    · simp [ToBundle, h1, GoResult.isErr]
  · intro h1
    simp [ToBundle, h1]
  · intro h1 hx
    simp [ToBundle, h1, hvm, hx]
  · intro h1 cert hx hE
    simp [ToBundle, h1, hvm, henv, hx, hE]
  · intro h1 cert hx e0 rest hE msg hmsg
    simp [ToBundle, h1, hvm, henv, hx, hE, hmsg]

theorem c4_toBundle_error_witness :
    ToBundle (some ⟨999, some ⟨sampleCert, [sampleEntry]⟩, some ⟨[1], [2]⟩⟩) =
      GoResult.err "unsupported attestation version: 999" :=
  (c4_toBundle_error_conditions ⟨999, some ⟨sampleCert, [sampleEntry]⟩, some ⟨[1], [2]⟩⟩
    ⟨sampleCert, [sampleEntry]⟩ ⟨[1], [2]⟩ rfl rfl).2.2.1 (by decide)

/-- C9: every attestation constructed by this package — by a successful
`UnmarshalAttestation` or a successful `FromBundle` — carries non-nil
verification-material and envelope blocks. -/
theorem c9_constructed_attestation_blocks :
    (∀ oj a, UnmarshalAttestation oj = Except.ok a →
      a.VerificationMaterial.isSome = true ∧ a.Envelope.isSome = true) ∧
    (∀ ob a, FromBundle ob = GoResult.ok a →
      a.VerificationMaterial.isSome = true ∧ a.Envelope.isSome = true) := by
  constructor
  · intro oj a h
    match oj with
    | none => cases h
    | some JVal.null => cases h; exact ⟨rfl, rfl⟩
    | some (JVal.bool _) => cases h
    | some (JVal.num _) => cases h
    | some (JVal.str _) => cases h
    | some (JVal.arr _) => cases h
    | some (JVal.obj raw) =>
        simp only [UnmarshalAttestation] at h
        split at h
        · cases h
        · split at h
          · cases h
          · cases h; exact ⟨rfl, rfl⟩
  · intro ob a h
    match ob with
    | none => cases h
    | some ⟨none⟩ => cases h
    | some ⟨some pb⟩ =>
        simp only [FromBundle] at h
        split at h
        · cases h
        · split at h
          · cases h
          · split at h
            · split at h
              · split at h
                · cases h
                · cases h; exact ⟨rfl, rfl⟩
              · cases h
            · cases h

theorem c9_constructed_attestation_blocks_witness :
    (⟨0, some ⟨[], []⟩, some ⟨[], []⟩⟩ : Attestation).VerificationMaterial.isSome = true ∧
    (⟨0, some ⟨[], []⟩, some ⟨[], []⟩⟩ : Attestation).Envelope.isSome = true :=
  c9_constructed_attestation_blocks.1 (some (JVal.obj [])) ⟨0, some ⟨[], []⟩, some ⟨[], []⟩⟩ rfl

/-- C6: `UnmarshalAttestation` returns a hard error on malformed JSON
and on a present certificate, statement, or signature string field that
is not valid base64; an absent version field is not an error and leaves
version 0; non-object elements of the transparency-entries array are
silently skipped and do not appear in the result. -/
theorem c6_unmarshal_behaviour :
    UnmarshalAttestation none = Except.error "failed to unmarshal JSON" ∧
    (∀ raw vm s, lookupField raw "verification_material" = some (JVal.obj vm) →
      lookupField vm "certificate" = some (JVal.str s) →
      decodeB64 s.data = none →
      UnmarshalAttestation (some (JVal.obj raw)) =
        Except.error "failed to decode certificate") ∧
    (∀ raw env s, lookupField raw "verification_material" = none →
      lookupField raw "envelope" = some (JVal.obj env) →
      lookupField env "statement" = some (JVal.str s) →
      decodeB64 s.data = none →
      UnmarshalAttestation (some (JVal.obj raw)) =
        Except.error "failed to decode statement") ∧
    (∀ raw env s, lookupField raw "verification_material" = none →
      lookupField raw "envelope" = some (JVal.obj env) →
      lookupField env "statement" = none →
      lookupField env "signature" = some (JVal.str s) →
      decodeB64 s.data = none →
      UnmarshalAttestation (some (JVal.obj raw)) =
        Except.error "failed to decode signature") ∧
    (∀ raw a, lookupField raw "version" = none →
      UnmarshalAttestation (some (JVal.obj raw)) = Except.ok a → a.Version = 0) ∧
    UnmarshalAttestation (some (JVal.obj [])) =
      Except.ok ⟨0, some ⟨[], []⟩, some ⟨[], []⟩⟩ ∧
    (∀ raw vm l a m, lookupField raw "verification_material" = some (JVal.obj vm) →
      lookupField vm "transparency_entries" = some (JVal.arr l) →
      UnmarshalAttestation (some (JVal.obj raw)) = Except.ok a →
      a.VerificationMaterial = some m →
      m.TransparencyEntries = l.filterMap fun e =>
        match e with
        | JVal.obj f => some (⟨f⟩ : Struct)
        | _ => none) := by
  refine ⟨rfl, ?_, ?_, ?_, ?_, rfl, ?_⟩
  · intro raw vm s hvm hcert hbad
    simp only [UnmarshalAttestation, hvm, decodeVMFields, hcert, hbad]
  · intro raw env s hvm henvF hstmt hbad
    simp only [UnmarshalAttestation, hvm, henvF, decodeEnvFields, hstmt, hbad]
  · intro raw env s hvm henvF hstmt hsig hbad
    simp only [UnmarshalAttestation, hvm, henvF, decodeEnvFields, hstmt, hsig, hbad]
  · intro raw a hver h
    simp only [UnmarshalAttestation] at h
    split at h
    · cases h
    · split at h
      · cases h
      · cases h
        simp [decodeVersion, hver]
  · intro raw vm l a m hvm hent h hm
    simp only [UnmarshalAttestation, hvm] at h
    split at h
    · cases h
    · split at h
      · cases h
      · cases h
        rename_i x1 vmRes hvmRes x2 envRes henvRes
        simp only at hm
        cases hm
        rw [decodeVMFields_entries vm _ hvmRes]
        simp [decodeEntriesField, hent]

theorem c6_unmarshal_behaviour_witness :
    UnmarshalAttestation (some (JVal.obj [("verification_material",
      JVal.obj [("certificate", JVal.str "!")])])) =
      Except.error "failed to decode certificate" :=
  c6_unmarshal_behaviour.2.1
    [("verification_material", JVal.obj [("certificate", JVal.str "!")])]
    [("certificate", JVal.str "!")] "!" rfl rfl rfl

/-- C10: `MarshalAttestation` performs no nil check: a nil attestation
or a nil verification-material or envelope sub-block makes it panic on
a nil dereference, never yielding an error value, and it runs error-free
exactly when all three are non-nil — unlike `MarshalBundle`, which
returns an error value for nil input. -/
theorem c10_marshal_nil_deref :
    MarshalAttestation none = GoResult.panics ∧
    (∀ a, a.VerificationMaterial = none → MarshalAttestation (some a) = GoResult.panics) ∧
    (∀ a, a.Envelope = none → MarshalAttestation (some a) = GoResult.panics) ∧
    (∀ oa msg, MarshalAttestation oa ≠ GoResult.err msg) ∧
    (∀ oa, (MarshalAttestation oa).isOk = true ↔
      ∃ a vm env, oa = some a ∧ a.VerificationMaterial = some vm ∧ a.Envelope = some env) ∧
    MarshalBundle none = GoResult.err "bundle cannot be nil" ∧
    (∀ b, b.Bundle = none → MarshalBundle (some b) = GoResult.err "bundle cannot be nil") := by
  refine ⟨rfl, ?_, ?_, ?_, ?_, rfl, ?_⟩
  · intro a ha
    obtain ⟨v, avm, aenv⟩ := a
    simp only at ha
    subst ha
    rfl
  · intro a ha
    obtain ⟨v, avm, aenv⟩ := a
    simp only at ha
    subst ha
    cases avm <;> rfl
  · intro oa msg h
    match oa with
    | none => exact GoResult.noConfusion h
    | some ⟨v, avm, aenv⟩ =>
        cases avm <;> cases aenv <;> exact GoResult.noConfusion h
  · intro oa
    constructor
    · intro h
      match oa with
      | none => cases h
      | some ⟨v, avm, aenv⟩ =>
          match avm, aenv with
          | some vm, some env => exact ⟨⟨v, some vm, some env⟩, vm, env, rfl, rfl, rfl⟩
          | some vm, none => cases h
          | none, some env => cases h
          | none, none => cases h
    · rintro ⟨a, vm, env, rfl, hvm2, henv2⟩
      simp [MarshalAttestation, hvm2, henv2, GoResult.isOk]
  · intro b hb
    obtain ⟨bb⟩ := b
    simp only at hb
    subst hb
    rfl

theorem c10_marshal_nil_deref_witness :
    MarshalAttestation (some ⟨1, none, none⟩) = GoResult.panics :=
  c10_marshal_nil_deref.2.1 ⟨1, none, none⟩ rfl

/-- Attestation with two transparency entries used to refute the
count-preservation part of the round-trip claim. -/
def cexAttestation : Attestation :=
  ⟨1, some ⟨sampleCert, [sampleEntry, sampleEntry]⟩, some ⟨[1], [2]⟩⟩

/-- C1 (counterexample): a valid attestation — version 1, parseable
certificate, non-nil blocks, two transparency entries — whose round
trip through `ToBundle` and `FromBundle` succeeds but returns one
transparency entry where the original had two: the transparency-entry
count is not preserved for every valid attestation. -/
theorem c1_roundtrip_counterexample :
    cexAttestation.Version = 1 ∧
    cexAttestation.VerificationMaterial = some ⟨sampleCert, [sampleEntry, sampleEntry]⟩ ∧
    cexAttestation.Envelope = some ⟨[1], [2]⟩ ∧
    x509ParseCertificate sampleCert = some ⟨sampleCert⟩ ∧
    ([sampleEntry, sampleEntry] : List Struct).length = 2 ∧
    roundTrip (some cexAttestation) =
      GoResult.ok ⟨1, some ⟨sampleCert, [sampleEntry]⟩, some ⟨[1], [2]⟩⟩ ∧
    ([sampleEntry] : List Struct).length = 1 :=
  ⟨rfl, rfl, rfl, rfl, rfl, rfl, rfl⟩

/-- C1 (amended): on a valid attestation (version 1, parseable DER
certificate, non-nil blocks, at least one transparency entry) whose
entry 0 converts through the typed-record adapter, the round trip
`FromBundle ∘ ToBundle` succeeds and preserves the version, the
certificate bytes, the envelope statement bytes and the envelope
signature bytes exactly; the resulting transparency-entry list is the
one-element list holding the round trip of entry 0 — semantically equal
to entry 0 whenever all of entry 0's fields are recognized by the typed
schema — so the entry count is preserved exactly when the attestation
had a single entry (entries beyond index 0 are dropped). -/
theorem c1_roundtrip_amended
    (a : Attestation) (vm : VerificationMaterial) (env : Envelope)
    (cert : X509ParsedCert) (e0 : Struct) (rest : List Struct) (t : TransparencyLogEntry)
    (hver : a.Version = 1)
    (hvm : a.VerificationMaterial = some vm)
    (henv : a.Envelope = some env)
    (hcert : x509ParseCertificate vm.Certificate = some cert)
    (hentries : vm.TransparencyEntries = e0 :: rest)
    (hconv : transparencyEntryFromStruct e0 = Except.ok t) :
    roundTrip (some a) = GoResult.ok
      ⟨1, some ⟨vm.Certificate, [⟨t.fields⟩]⟩, some ⟨env.Statement, env.Signature⟩⟩ ∧
    ((e0.fields.all fun kv => tleRecognizedKeys.contains kv.1) = true →
      (⟨t.fields⟩ : Struct) = e0) ∧
    (rest = [] →
      ([(⟨t.fields⟩ : Struct)] : List Struct).length = vm.TransparencyEntries.length) := by
  have hraw : cert.Raw = vm.Certificate := x509Parse_raw _ _ hcert
  refine ⟨?_, ?_, ?_⟩
  · simp [roundTrip, ToBundle, hver, hvm, henv, hcert, hentries, hconv, newBundle,
      FromBundle, extractCertBytes, convertEntries, transparencyEntryToStruct, hraw]
  · intro hall
    unfold transparencyEntryFromStruct at hconv
    simp only at hconv
    split at hconv
    · injection hconv with h2
      subst h2
      have hfilter : (e0.fields.filter fun kv => tleRecognizedKeys.contains kv.1) = e0.fields :=
        List.filter_eq_self.mpr (List.all_eq_true.mp hall)
      show (⟨e0.fields.filter fun kv => tleRecognizedKeys.contains kv.1⟩ : Struct) = e0
      rw [hfilter]
    · cases hconv
  · intro hrest
    rw [hentries, hrest]
    rfl

theorem c1_roundtrip_amended_witness :
    roundTrip (some sampleAttestation) =
      GoResult.ok ⟨1, some ⟨sampleCert, [sampleEntry]⟩, some ⟨[1], [2]⟩⟩ :=
  (c1_roundtrip_amended sampleAttestation ⟨sampleCert, [sampleEntry]⟩ ⟨[1], [2]⟩
    ⟨sampleCert⟩ sampleEntry [] sampleTle rfl rfl rfl rfl rfl rfl).1

/-- C7: on an attestation with non-nil sub-blocks (whose byte fields
hold genuine bytes), `MarshalAttestation` succeeds and decoding its
output with `UnmarshalAttestation` succeeds, reproducing the
certificate bytes, the envelope statement bytes and the envelope
signature bytes exactly. -/
theorem c7_marshal_unmarshal_roundtrip
    (a : Attestation) (vm : VerificationMaterial) (env : Envelope)
    (hvm : a.VerificationMaterial = some vm)
    (henv : a.Envelope = some env)
    (hc : ∀ b ∈ vm.Certificate, b < 256)
    (hs : ∀ b ∈ env.Statement, b < 256)
    (hg : ∀ b ∈ env.Signature, b < 256) :
    MarshalAttestation (some a) = GoResult.ok (attestationJson a.Version vm env) ∧
    UnmarshalAttestation (some (attestationJson a.Version vm env)) =
      Except.ok ⟨a.Version % 4294967296, some ⟨vm.Certificate, vm.TransparencyEntries⟩,
        some ⟨env.Statement, env.Signature⟩⟩ := by
  have h1 := decodeB64_encodeB64 vm.Certificate hc
  have h2 := decodeB64_encodeB64 env.Statement hs
  have h3 := decodeB64_encodeB64 env.Signature hg
  constructor
  · simp [MarshalAttestation, hvm, henv]
  · simp [UnmarshalAttestation, attestationJson, lookupField, decodeVMFields,
      decodeEnvFields, decodeEntriesField, decodeVersion, h1, h2, h3, filterMap_obj_map,
      filterMap_obj_comp]

theorem c7_marshal_unmarshal_roundtrip_witness :
    UnmarshalAttestation
      (some (attestationJson sampleAttestation.Version ⟨sampleCert, [sampleEntry]⟩ ⟨[1], [2]⟩)) =
      Except.ok ⟨sampleAttestation.Version % 4294967296,
        some ⟨sampleCert, [sampleEntry]⟩, some ⟨[1], [2]⟩⟩ :=
  (c7_marshal_unmarshal_roundtrip sampleAttestation ⟨sampleCert, [sampleEntry]⟩ ⟨[1], [2]⟩
    rfl rfl (by decide) (by decide) (by decide)).2

end PyPIAttestations
